import Mathlib

/-!
Verification of the AWS VPC Pulumi component (src/types.ts and src/vpc.ts).

The component is a straight-line declarative program: it validates its input
arguments and then declares a fixed sequence of cloud resources, wiring
cross references through deferred engine values.  We embed it shallowly:

* `VpcArgs` mirrors the TypeScript `VpcArgs` interface; optional fields
  become `Option`; string fields are always present (the TypeScript type
  system guarantees this), so the runtime presence checks reduce to
  emptiness checks on strings and length checks on lists, matching the
  JavaScript truthiness semantics of the source (an empty array is truthy,
  an empty string is falsy).
* The CIDR regex test is embedded as a deterministic maximal-munch matcher
  over character lists.  The source pattern is
  four groups of one to three digits separated by dots, then a slash and
  one to two digits, anchored on both sides.  Because every digit group is
  followed by a mandatory non-digit character (a dot, a slash, or the end
  of the string), greedy matching with backtracking coincides with taking
  the maximal digit run and then demanding the separator, which is what
  the matcher below does.
* The resource graph is a list of `Resource` declarations in source order;
  deferred engine values (resource ids and arns) are embedded as `Ref`
  values naming the declaration index of the resource they refer to.
-/

/-- A deferred engine value: the id or another declared property (arn,
cidrBlock) of the resource declared at a given index of the graph, or the
explicit JavaScript `undefined` used for the disabled flow-log output. -/
inductive Ref where
  | resId (idx : Nat)
  | resProp (idx : Nat) (field : String)
  | undef
deriving DecidableEq, Repr

/-- One entry of a route table `routes` property (vpc.ts lines 120-125 and
199-204): a destination plus at most one of an internet-gateway target or a
NAT-gateway target. -/
structure Route where
  destCidrBlock : String
  gatewayId : Option Ref
  natGatewayId : Option Ref
deriving DecidableEq, Repr

/-- One egress rule of the default security group (vpc.ts lines 258-265). -/
structure EgressRule where
  protocol : String
  fromPort : Nat
  toPort : Nat
  cidrBlocks : List String
deriving DecidableEq, Repr

/-- Tag sets are JavaScript objects written as literal key/value lists; a
spread appends the extra pairs at the end, and on duplicate keys the later
binding wins (see `tagLast`). -/
abbrev Tags := List (String × String)

/-- The properties of each resource kind the component declares, with the
property shapes taken from the corresponding `new aws...` call in vpc.ts. -/
inductive Props where
  | vpc (cidrBlock : String) (enableDnsHostnames enableDnsSupport : Bool)
        (instanceTenancy : String) (tags : Tags)
  | internetGateway (vpcId : Ref) (tags : Tags)
  | subnet (vpcId : Ref) (cidrBlock : String) (availabilityZone : String)
           (mapPublicIpOnLaunch : Bool) (tags : Tags)
  | routeTable (vpcId : Ref) (routes : Option (List Route)) (tags : Tags)
  | routeTableAssociation (subnetId : Ref) (routeTableId : Ref)
  | eip (domain : String) (tags : Tags)
  | natGateway (allocationId : Ref) (subnetId : Ref) (tags : Tags)
  | defaultSecurityGroup (vpcId : Ref) (egress : List EgressRule) (tags : Tags)
  | logGroup (lname : String) (retentionInDays : Int) (tags : Tags)
  | iamRole (assumeRoleService : String) (tags : Tags)
  | rolePolicy (role : Ref) (policyResource : Ref) (policyActions : List String)
  | flowLog (vpcId : Ref) (trafficType : String) (logDestination : Ref)
            (iamRoleArn : Ref) (tags : Tags)
deriving DecidableEq, Repr

/-- A declared resource: its Pulumi logical name and its properties. -/
structure Resource where
  rname : String
  props : Props
deriving DecidableEq, Repr

/-- Mirror of the `VpcArgs` interface (types.ts).  Optional interface
fields become `Option`; `flowLogRetentionDays` is an `Int` because it is a
JavaScript number whose only falsy value in our fragment is 0. -/
structure VpcArgs where
  cidrBlock : String
  availabilityZones : List String
  publicSubnetCidrs : List String
  privateSubnetCidrs : List String
  environment : String
  project : String
  instanceTenancy : Option String
  enableNatGateway : Option Bool
  enableFlowLogs : Option Bool
  flowLogRetentionDays : Option Int
  tags : Option Tags
deriving DecidableEq, Repr

/-! ### The CIDR validator (vpc.ts lines 433-451) -/

/-- Value of a digit string, as computed by JavaScript `parseInt` and
`Number` on all-digit input. -/
def digitsToNat (ds : List Char) : Nat :=
  ds.foldl (fun acc c => 10 * acc + (c.toNat - 48)) 0

/-- One regex group `\d{1,maxLen}` followed by the literal `sep`: take the
maximal digit run, demand its length lies in [1, maxLen] and that the next
character is `sep`, and return the remainder. -/
def matchGroup (maxLen : Nat) (sep : Char) (cs : List Char) : Option (List Char) :=
  let ds := cs.takeWhile Char.isDigit
  let rest := cs.dropWhile Char.isDigit
  if 1 ≤ ds.length ∧ ds.length ≤ maxLen then
    match rest with
    | c :: rest2 => if c = sep then some rest2 else none
    | [] => none
  else none

/-- The final regex group `\d{1,maxLen}$`: a maximal digit run of length in
[1, maxLen] that consumes the whole remainder. -/
def matchEnd (maxLen : Nat) (cs : List Char) : Bool :=
  let ds := cs.takeWhile Char.isDigit
  let rest := cs.dropWhile Char.isDigit
  decide (1 ≤ ds.length ∧ ds.length ≤ maxLen) && rest.isEmpty

/-- The anchored regex of vpc.ts line 434: three groups of one to three
digits each followed by a dot, then one to three digits, a slash, and one
to two digits ending the string. -/
def cidrRegexTest (cs : List Char) : Bool :=
  match matchGroup 3 '.' cs with
  | none => false
  | some r1 =>
    match matchGroup 3 '.' r1 with
    | none => false
    | some r2 =>
      match matchGroup 3 '.' r2 with
      | none => false
      | some r3 =>
        match matchGroup 3 '/' r3 with
        | none => false
        | some r4 => matchEnd 2 r4

/-- JavaScript `String.prototype.split` with a single-character separator,
on the character list of the string. -/
def splitOnChar (sep : Char) : List Char → List (List Char)
  | [] => [[]]
  | c :: rest =>
    let r := splitOnChar sep rest
    if c = sep then [] :: r
    else
      match r with
      | h :: t => (c :: h) :: t
      | [] => [[c]]

/-- `validateCidrBlock` (vpc.ts lines 433-451): regex test, then prefix
range check via `parseInt` on the part after the slash, then octet range
check via `Number` on the dot-separated parts.  After the regex has
succeeded the split parts are all-digit strings, so `digitsToNat` computes
exactly what `parseInt` and `Number` return, and the `part < 0` half of the
octet check is vacuous. -/
def validateCidrBlock (cidr : String) (nm : String) : Except String Unit :=
  if cidrRegexTest cidr.toList = false then
    .error (nm ++ " must be a valid CIDR block (e.g., 10.0.0.0/16)")
  else
    let parts := splitOnChar '/' cidr.toList
    let ip := parts.getD 0 []
    let pfx := digitsToNat (parts.getD 1 [])
    if pfx < 8 ∨ pfx > 30 then
      .error (nm ++ " prefix must be between 8 and 30")
    else
      let ipParts := (splitOnChar '.' ip).map digitsToNat
      if ipParts.any (fun p => 255 < p) then
        .error (nm ++ " contains invalid IP address")
      else
        .ok ()

/-- The `forEach` loops of vpc.ts lines 422-427: validate each CIDR of a
list in order, reporting its index, and fail on the first bad one. -/
def validateCidrList (label : String) (i : Nat) : List String → Except String Unit
  | [] => .ok ()
  | c :: rest =>
    match validateCidrBlock c (label ++ toString i ++ " CIDR") with
    | .error e => .error e
    | .ok _ => validateCidrList label (i + 1) rest

/-- `validateArgs` (vpc.ts lines 385-428).  For a well-typed `VpcArgs` the
JavaScript presence checks `!args.field` can only fire on empty strings
(arrays, even empty ones, are truthy), so they are embedded as emptiness
checks on the string fields and as the explicit length checks written in
the source for the list fields. -/
def validateArgs (args : VpcArgs) : Except String Unit :=
  if args.cidrBlock = "" then
    .error "cidrBlock is required"
  else if args.availabilityZones.length = 0 then
    .error "availabilityZones must be provided and non-empty"
  else if args.publicSubnetCidrs.length ≠ args.availabilityZones.length then
    .error "publicSubnetCidrs must be provided and match the number of availability zones"
  else if args.privateSubnetCidrs.length ≠ args.availabilityZones.length then
    .error "privateSubnetCidrs must be provided and match the number of availability zones"
  else if args.environment = "" then
    .error "environment is required"
  else if args.project = "" then
    .error "project is required"
  else
    match validateCidrBlock args.cidrBlock "VPC CIDR" with
    | .error e => .error e
    | .ok _ =>
      match validateCidrList "Public subnet " 0 args.publicSubnetCidrs with
      | .error e => .error e
      | .ok _ => validateCidrList "Private subnet " 0 args.privateSubnetCidrs

deriving instance DecidableEq for Except

/-! ### The resource graph builder (vpc.ts constructor, lines 27-380)

Resources are listed in source declaration order:
index 0 the VPC, index 1 the internet gateway, indices 2 .. 2+n-1 the
public subnets (zone order), 2+n .. 2+2n-1 the private subnets, 2+2n the
public route table, 3+2n .. 2+3n the public route table associations;
with NAT enabled 3+3n .. 2+4n the elastic addresses, 3+4n .. 2+5n the NAT
gateways, 3+5n .. 2+6n the private route tables, otherwise 3+3n .. 2+4n
the private route tables; then n private route table associations, the
default security group, and with flow logs enabled the log group, the IAM
role, the role policy and the flow log. -/

/-- The test `args.enableNatGateway !== false` of vpc.ts line 153. -/
def natEnabledOf (args : VpcArgs) : Bool :=
  match args.enableNatGateway with
  | some false => false
  | _ => true

/-- The test `args.enableFlowLogs !== false` of vpc.ts line 278. -/
def flowEnabledOf (args : VpcArgs) : Bool :=
  match args.enableFlowLogs with
  | some false => false
  | _ => true

/-- The default `args.instanceTenancy || "default"` of vpc.ts line 44. -/
def tenancyOf (args : VpcArgs) : String := args.instanceTenancy.getD "default"

/-- The spread `...args.tags` of vpc.ts line 50; an absent record spreads
to nothing. -/
def extraTags (args : VpcArgs) : Tags := args.tags.getD []

/-- The default `args.flowLogRetentionDays || 7` of vpc.ts line 284: in
JavaScript the number 0 is falsy, so both an omitted value and a configured
0 yield 7. -/
def retentionOf (args : VpcArgs) : Int :=
  match args.flowLogRetentionDays with
  | none => 7
  | some d => if d = 0 then 7 else d

/-- Zone at index `i` (the callbacks of the source receive it as `az`). -/
def zoneOf (args : VpcArgs) (i : Nat) : String := args.availabilityZones.getD i ""

/-- The VPC resource (vpc.ts lines 38-54); the only resource whose tag set
spreads the caller extra tags after the standard tags. -/
def vpcRes (name : String) (args : VpcArgs) : Resource :=
  ⟨name ++ "-vpc",
   .vpc args.cidrBlock true true (tenancyOf args)
     ([("Name", name ++ "-vpc"), ("Environment", args.environment),
       ("Project", args.project), ("ManagedBy", "pulumi")] ++ extraTags args)⟩

/-- The internet gateway (vpc.ts lines 57-69). -/
def igwRes (name : String) (args : VpcArgs) : Resource :=
  ⟨name ++ "-igw",
   .internetGateway (.resId 0)
     [("Name", name ++ "-igw"), ("Environment", args.environment),
      ("Project", args.project), ("ManagedBy", "pulumi")]⟩

/-- Public subnet for zone index `i` (vpc.ts lines 72-91). -/
def mkPublicSubnet (name : String) (args : VpcArgs) (i : Nat) : Resource :=
  ⟨name ++ "-public-" ++ zoneOf args i,
   .subnet (.resId 0) (args.publicSubnetCidrs.getD i "") (zoneOf args i) true
     [("Name", name ++ "-public-" ++ zoneOf args i),
      ("Environment", args.environment), ("Project", args.project),
      ("Type", "public"), ("ManagedBy", "pulumi")]⟩

/-- Private subnet for zone index `i` (vpc.ts lines 94-113). -/
def mkPrivateSubnet (name : String) (args : VpcArgs) (i : Nat) : Resource :=
  ⟨name ++ "-private-" ++ zoneOf args i,
   .subnet (.resId 0) (args.privateSubnetCidrs.getD i "") (zoneOf args i) false
     [("Name", name ++ "-private-" ++ zoneOf args i),
      ("Environment", args.environment), ("Project", args.project),
      ("Type", "private"), ("ManagedBy", "pulumi")]⟩

/-- The shared public route table with its single default route to the
internet gateway (vpc.ts lines 116-135). -/
def publicRtRes (name : String) (args : VpcArgs) : Resource :=
  ⟨name ++ "-public-rt",
   .routeTable (.resId 0) (some [⟨"0.0.0.0/0", some (.resId 1), none⟩])
     [("Name", name ++ "-public-rt"), ("Environment", args.environment),
      ("Project", args.project), ("Type", "public"), ("ManagedBy", "pulumi")]⟩

/-- Association of public subnet `i` with the public route table
(vpc.ts lines 138-147). -/
def mkPublicRta (name : String) (args : VpcArgs) (i : Nat) : Resource :=
  ⟨name ++ "-public-rta-" ++ toString i,
   .routeTableAssociation (.resId (2 + i))
     (.resId (2 + 2 * args.availabilityZones.length))⟩

/-- Elastic address for zone index `i` (vpc.ts lines 155-169). -/
def mkNatEip (name : String) (args : VpcArgs) (i : Nat) : Resource :=
  ⟨name ++ "-nat-eip-" ++ zoneOf args i,
   .eip "vpc"
     [("Name", name ++ "-nat-eip-" ++ zoneOf args i),
      ("Environment", args.environment), ("Project", args.project),
      ("ManagedBy", "pulumi")]⟩

/-- NAT gateway for zone index `i`, bound to the elastic address `i` and
the public subnet `i` (vpc.ts lines 172-190). -/
def mkNatGateway (name : String) (args : VpcArgs) (i : Nat) : Resource :=
  ⟨name ++ "-nat-" ++ zoneOf args i,
   .natGateway (.resId (3 + 3 * args.availabilityZones.length + i)) (.resId (2 + i))
     [("Name", name ++ "-nat-" ++ zoneOf args i),
      ("Environment", args.environment), ("Project", args.project),
      ("ManagedBy", "pulumi")]⟩

/-- Private route table for zone index `i` in the NAT-enabled branch, with
its single default route to NAT gateway `i` (vpc.ts lines 193-217). -/
def mkPrivateRtNat (name : String) (args : VpcArgs) (i : Nat) : Resource :=
  ⟨name ++ "-private-rt-" ++ zoneOf args i,
   .routeTable (.resId 0)
     (some [⟨"0.0.0.0/0", none, some (.resId (3 + 4 * args.availabilityZones.length + i))⟩])
     [("Name", name ++ "-private-rt-" ++ zoneOf args i),
      ("Environment", args.environment), ("Project", args.project),
      ("Type", "private"), ("ManagedBy", "pulumi")]⟩

/-- Private route table for zone index `i` in the NAT-disabled branch; the
`routes` property is absent (vpc.ts lines 220-238). -/
def mkPrivateRtPlain (name : String) (args : VpcArgs) (i : Nat) : Resource :=
  ⟨name ++ "-private-rt-" ++ zoneOf args i,
   .routeTable (.resId 0) none
     [("Name", name ++ "-private-rt-" ++ zoneOf args i),
      ("Environment", args.environment), ("Project", args.project),
      ("Type", "private"), ("ManagedBy", "pulumi")]⟩

/-- Index of the private route table for zone `i` in the graph. -/
def idxPrivateRt (args : VpcArgs) (i : Nat) : Nat :=
  if natEnabledOf args then 3 + 5 * args.availabilityZones.length + i
  else 3 + 3 * args.availabilityZones.length + i

/-- Association of private subnet `i` with the private route table of the
same zone index (vpc.ts lines 242-251). -/
def mkPrivateRta (name : String) (args : VpcArgs) (i : Nat) : Resource :=
  ⟨name ++ "-private-rta-" ++ toString i,
   .routeTableAssociation (.resId (2 + args.availabilityZones.length + i))
     (.resId (idxPrivateRt args i))⟩

/-- The default security group override permitting all egress
(vpc.ts lines 254-274). -/
def sgRes (name : String) (args : VpcArgs) : Resource :=
  ⟨name ++ "-default-sg",
   .defaultSecurityGroup (.resId 0) [⟨"-1", 0, 0, ["0.0.0.0/0"]⟩]
     [("Name", name ++ "-default-sg"), ("Environment", args.environment),
      ("Project", args.project), ("ManagedBy", "pulumi")]⟩

/-- Index of the default security group in the graph. -/
def idxSg (args : VpcArgs) : Nat :=
  if natEnabledOf args then 3 + 7 * args.availabilityZones.length
  else 3 + 5 * args.availabilityZones.length

/-- Index of the flow-log log group when flow logs are enabled. -/
def idxFlowBase (args : VpcArgs) : Nat := idxSg args + 1

/-- The CloudWatch log group for flow logs (vpc.ts lines 280-292); note
its tag set has no Name key. -/
def flowLogGroupRes (name : String) (args : VpcArgs) : Resource :=
  ⟨name ++ "-flow-logs",
   .logGroup ("/aws/vpc/flow-logs/" ++ name) (retentionOf args)
     [("Environment", args.environment), ("Project", args.project),
      ("ManagedBy", "pulumi")]⟩

/-- The IAM role trusted by the flow-log service (vpc.ts lines 295-308). -/
def flowLogRoleRes (name : String) (args : VpcArgs) : Resource :=
  ⟨name ++ "-flow-log-role",
   .iamRole "vpc-flow-logs.amazonaws.com"
     [("Environment", args.environment), ("Project", args.project),
      ("ManagedBy", "pulumi")]⟩

/-- The inline policy on the flow-log role, scoped to the log group arn
(vpc.ts lines 311-333); it carries no tags. -/
def flowLogPolicyRes (name : String) (args : VpcArgs) : Resource :=
  ⟨name ++ "-flow-log-policy",
   .rolePolicy (.resId (idxFlowBase args + 1)) (.resProp (idxFlowBase args) "arn")
     ["logs:CreateLogGroup", "logs:CreateLogStream", "logs:PutLogEvents",
      "logs:DescribeLogGroups", "logs:DescribeLogStreams"]⟩

/-- The flow log itself (vpc.ts lines 336-351). -/
def flowLogRes (name : String) (args : VpcArgs) : Resource :=
  ⟨name ++ "-flow-log",
   .flowLog (.resId 0) "ALL" (.resProp (idxFlowBase args) "arn")
     (.resProp (idxFlowBase args + 1) "arn")
     [("Name", name ++ "-flow-log"), ("Environment", args.environment),
      ("Project", args.project), ("ManagedBy", "pulumi")]⟩

/-- The public subnets in zone order (vpc.ts lines 72-91). -/
def publicSubnetsSeg (name : String) (args : VpcArgs) : List Resource :=
  (List.range args.availabilityZones.length).map (mkPublicSubnet name args)

/-- The private subnets in zone order (vpc.ts lines 94-113). -/
def privateSubnetsSeg (name : String) (args : VpcArgs) : List Resource :=
  (List.range args.availabilityZones.length).map (mkPrivateSubnet name args)

/-- The public route table associations (vpc.ts lines 138-147). -/
def publicRtaSeg (name : String) (args : VpcArgs) : List Resource :=
  (List.range args.availabilityZones.length).map (mkPublicRta name args)

/-- The NAT branch of the constructor (vpc.ts lines 153-239): with NAT
enabled the elastic addresses, then the NAT gateways, then the private
route tables with default routes; otherwise only plain private route
tables. -/
def natSeg (name : String) (args : VpcArgs) : List Resource :=
  if natEnabledOf args then
    (List.range args.availabilityZones.length).map (mkNatEip name args) ++
    (List.range args.availabilityZones.length).map (mkNatGateway name args) ++
    (List.range args.availabilityZones.length).map (mkPrivateRtNat name args)
  else
    (List.range args.availabilityZones.length).map (mkPrivateRtPlain name args)

/-- The private route table associations (vpc.ts lines 242-251). -/
def privateRtaSeg (name : String) (args : VpcArgs) : List Resource :=
  (List.range args.availabilityZones.length).map (mkPrivateRta name args)

/-- The flow-logging branch (vpc.ts lines 277-352): all four logging
resources, or none. -/
def flowSeg (name : String) (args : VpcArgs) : List Resource :=
  if flowEnabledOf args then
    [flowLogGroupRes name args, flowLogRoleRes name args,
     flowLogPolicyRes name args, flowLogRes name args]
  else []

/-- The full resource graph declared by one constructor run, in source
declaration order. -/
def graphResources (name : String) (args : VpcArgs) : List Resource :=
  [vpcRes name args, igwRes name args] ++
  publicSubnetsSeg name args ++ privateSubnetsSeg name args ++
  [publicRtRes name args] ++ publicRtaSeg name args ++
  natSeg name args ++ privateRtaSeg name args ++
  [sgRes name args] ++ flowSeg name args

/-- The output bundle registered at vpc.ts lines 354-379. -/
structure VpcOutputs where
  vpcId : Ref
  vpcCidr : Ref
  publicSubnetIds : List Ref
  privateSubnetIds : List Ref
  publicRouteTableId : Ref
  privateRouteTableIds : List Ref
  natGatewayIds : List Ref
  internetGatewayId : Ref
  flowLogId : Ref
deriving DecidableEq, Repr

/-- The outputs of one constructor run: each id list maps the resource
lists of the constructor to their deferred ids, so its order is the zone
order of the corresponding segment; `natGatewayIds` maps the `natGateways`
array, which stays empty in the NAT-disabled branch; `flowLogId` is the
flow-log id when the flow log was declared and `undefined` otherwise
(vpc.ts lines 354-367). -/
def vpcOutputs (_name : String) (args : VpcArgs) : VpcOutputs :=
  let n := args.availabilityZones.length
  ⟨.resId 0,
   .resProp 0 "cidrBlock",
   (List.range n).map (fun i => .resId (2 + i)),
   (List.range n).map (fun i => .resId (2 + n + i)),
   .resId (2 + 2 * n),
   (List.range n).map (fun i => .resId (idxPrivateRt args i)),
   (if natEnabledOf args then (List.range n).map (fun i => .resId (3 + 4 * n + i)) else []),
   .resId 1,
   (if flowEnabledOf args then .resId (idxFlowBase args + 3) else .undef)⟩

/-- One full constructor pass: graph plus outputs (only reached when
validation passed). -/
def buildGraph (name : String) (args : VpcArgs) : List Resource × VpcOutputs :=
  (graphResources name args, vpcOutputs name args)

/-- The constructor (vpc.ts lines 27-380): validate first, and only on
success declare the graph and register the outputs. -/
def vpcConstructor (name : String) (args : VpcArgs) :
    Except String (List Resource × VpcOutputs) :=
  match validateArgs args with
  | .error e => .error e
  | .ok _ => .ok (buildGraph name args)

/-- The resources declared by a constructor run: none when it throws. -/
def declaredResources (r : Except String (List Resource × VpcOutputs)) : List Resource :=
  match r with
  | .error _ => []
  | .ok p => p.1

/-! ### Generic list lemmas used to locate resources in the graph -/

theorem listSkip {α : Type} (l₁ l₂ : List α) (k i : Nat) (h : l₁.length = k) :
    (l₁ ++ l₂)[k + i]? = l₂[i]? := by
  rw [List.getElem?_append]
  have hk : ¬ (k + i < l₁.length) := by omega
  simp [hk, h]

theorem listTake {α : Type} (l₁ l₂ : List α) (i : Nat) (h : i < l₁.length) :
    (l₁ ++ l₂)[i]? = l₁[i]? := by
  rw [List.getElem?_append]
  simp [h]

theorem rangeMapGet {α : Type} (f : Nat → α) {n i : Nat} (h : i < n) :
    ((List.range n).map f)[i]? = some (f i) := by
  simp [List.getElem?_map, List.getElem?_range, h]

/-! ### Resource classifiers -/

/-- Is `r` a subnet with `mapPublicIpOnLaunch` enabled. -/
def isPublicSubnet (r : Resource) : Bool :=
  match r.props with
  | .subnet _ _ _ true _ => true
  | _ => false

/-- Is `r` a subnet with `mapPublicIpOnLaunch` disabled. -/
def isPrivateSubnet (r : Resource) : Bool :=
  match r.props with
  | .subnet _ _ _ false _ => true
  | _ => false

/-- The availability zone of a subnet resource. -/
def subnetZone (r : Resource) : Option String :=
  match r.props with
  | .subnet _ _ az _ _ => some az
  | _ => none

/-! ### Locating the per-zone resources in the graph -/

theorem graph_publicSubnet (name : String) (args : VpcArgs) {i : Nat}
    (h : i < args.availabilityZones.length) :
    (graphResources name args)[2 + i]? = some (mkPublicSubnet name args i) := by
  simp only [graphResources, List.append_assoc]
  rw [listSkip [vpcRes name args, igwRes name args] _ 2 i (by simp)]
  rw [listTake (publicSubnetsSeg name args) _ i (by simpa [publicSubnetsSeg] using h)]
  simp [publicSubnetsSeg, rangeMapGet, h]

theorem graph_privateSubnet (name : String) (args : VpcArgs) {i : Nat}
    (h : i < args.availabilityZones.length) :
    (graphResources name args)[2 + args.availabilityZones.length + i]? =
      some (mkPrivateSubnet name args i) := by
  simp only [graphResources, List.append_assoc]
  rw [show 2 + args.availabilityZones.length + i =
        2 + (args.availabilityZones.length + i) from by omega]
  rw [listSkip [vpcRes name args, igwRes name args] _ 2
        (args.availabilityZones.length + i) (by simp)]
  rw [listSkip (publicSubnetsSeg name args) _ args.availabilityZones.length i
        (by simp [publicSubnetsSeg])]
  rw [listTake (privateSubnetsSeg name args) _ i (by simpa [privateSubnetsSeg] using h)]
  simp [privateSubnetsSeg, rangeMapGet, h]

theorem graph_publicRt (name : String) (args : VpcArgs) :
    (graphResources name args)[2 + 2 * args.availabilityZones.length]? =
      some (publicRtRes name args) := by
  simp only [graphResources, List.append_assoc]
  rw [show 2 + 2 * args.availabilityZones.length =
        2 + (args.availabilityZones.length + (args.availabilityZones.length + 0))
      from by omega]
  rw [listSkip [vpcRes name args, igwRes name args] _ 2 _ (by simp)]
  rw [listSkip (publicSubnetsSeg name args) _ args.availabilityZones.length _
        (by simp [publicSubnetsSeg])]
  rw [listSkip (privateSubnetsSeg name args) _ args.availabilityZones.length _
        (by simp [privateSubnetsSeg])]
  simp

theorem graph_eip (name : String) (args : VpcArgs) {i : Nat}
    (hnat : natEnabledOf args = true)
    (h : i < args.availabilityZones.length) :
    (graphResources name args)[3 + 3 * args.availabilityZones.length + i]? =
      some (mkNatEip name args i) := by
  simp only [graphResources, List.append_assoc]
  rw [show 3 + 3 * args.availabilityZones.length + i =
        2 + (args.availabilityZones.length + (args.availabilityZones.length +
          (1 + (args.availabilityZones.length + i)))) from by omega]
  rw [listSkip [vpcRes name args, igwRes name args] _ 2 _ (by simp)]
  rw [listSkip (publicSubnetsSeg name args) _ args.availabilityZones.length _
        (by simp [publicSubnetsSeg])]
  rw [listSkip (privateSubnetsSeg name args) _ args.availabilityZones.length _
        (by simp [privateSubnetsSeg])]
  rw [listSkip [publicRtRes name args] _ 1 _ (by simp)]
  rw [listSkip (publicRtaSeg name args) _ args.availabilityZones.length _
        (by simp [publicRtaSeg])]
  rw [natSeg, if_pos hnat]
  simp only [List.append_assoc]
  rw [listTake ((List.range args.availabilityZones.length).map (mkNatEip name args)) _ i
        (by simpa using h)]
  exact rangeMapGet _ h

theorem graph_natGateway (name : String) (args : VpcArgs) {i : Nat}
    (hnat : natEnabledOf args = true)
    (h : i < args.availabilityZones.length) :
    (graphResources name args)[3 + 4 * args.availabilityZones.length + i]? =
      some (mkNatGateway name args i) := by
  simp only [graphResources, List.append_assoc]
  rw [show 3 + 4 * args.availabilityZones.length + i =
        2 + (args.availabilityZones.length + (args.availabilityZones.length +
          (1 + (args.availabilityZones.length +
            (args.availabilityZones.length + i))))) from by omega]
  rw [listSkip [vpcRes name args, igwRes name args] _ 2 _ (by simp)]
  rw [listSkip (publicSubnetsSeg name args) _ args.availabilityZones.length _
        (by simp [publicSubnetsSeg])]
  rw [listSkip (privateSubnetsSeg name args) _ args.availabilityZones.length _
        (by simp [privateSubnetsSeg])]
  rw [listSkip [publicRtRes name args] _ 1 _ (by simp)]
  rw [listSkip (publicRtaSeg name args) _ args.availabilityZones.length _
        (by simp [publicRtaSeg])]
  rw [natSeg, if_pos hnat]
  simp only [List.append_assoc]
  rw [listSkip ((List.range args.availabilityZones.length).map (mkNatEip name args)) _
        args.availabilityZones.length i (by simp)]
  rw [listTake ((List.range args.availabilityZones.length).map (mkNatGateway name args)) _ i
        (by simpa using h)]
  exact rangeMapGet _ h

theorem graph_privateRtNat (name : String) (args : VpcArgs) {i : Nat}
    (hnat : natEnabledOf args = true)
    (h : i < args.availabilityZones.length) :
    (graphResources name args)[3 + 5 * args.availabilityZones.length + i]? =
      some (mkPrivateRtNat name args i) := by
  simp only [graphResources, List.append_assoc]
  rw [show 3 + 5 * args.availabilityZones.length + i =
        2 + (args.availabilityZones.length + (args.availabilityZones.length +
          (1 + (args.availabilityZones.length + (args.availabilityZones.length +
            (args.availabilityZones.length + i)))))) from by omega]
  rw [listSkip [vpcRes name args, igwRes name args] _ 2 _ (by simp)]
  rw [listSkip (publicSubnetsSeg name args) _ args.availabilityZones.length _
        (by simp [publicSubnetsSeg])]
  rw [listSkip (privateSubnetsSeg name args) _ args.availabilityZones.length _
        (by simp [privateSubnetsSeg])]
  rw [listSkip [publicRtRes name args] _ 1 _ (by simp)]
  rw [listSkip (publicRtaSeg name args) _ args.availabilityZones.length _
        (by simp [publicRtaSeg])]
  rw [natSeg, if_pos hnat]
  simp only [List.append_assoc]
  rw [listSkip ((List.range args.availabilityZones.length).map (mkNatEip name args)) _
        args.availabilityZones.length _ (by simp)]
  rw [listSkip ((List.range args.availabilityZones.length).map (mkNatGateway name args)) _
        args.availabilityZones.length i (by simp)]
  rw [listTake ((List.range args.availabilityZones.length).map (mkPrivateRtNat name args)) _ i
        (by simpa using h)]
  exact rangeMapGet _ h

theorem graph_privateRtPlain (name : String) (args : VpcArgs) {i : Nat}
    (hnat : natEnabledOf args = false)
    (h : i < args.availabilityZones.length) :
    (graphResources name args)[3 + 3 * args.availabilityZones.length + i]? =
      some (mkPrivateRtPlain name args i) := by
  simp only [graphResources, List.append_assoc]
  rw [show 3 + 3 * args.availabilityZones.length + i =
        2 + (args.availabilityZones.length + (args.availabilityZones.length +
          (1 + (args.availabilityZones.length + i)))) from by omega]
  rw [listSkip [vpcRes name args, igwRes name args] _ 2 _ (by simp)]
  rw [listSkip (publicSubnetsSeg name args) _ args.availabilityZones.length _
        (by simp [publicSubnetsSeg])]
  rw [listSkip (privateSubnetsSeg name args) _ args.availabilityZones.length _
        (by simp [privateSubnetsSeg])]
  rw [listSkip [publicRtRes name args] _ 1 _ (by simp)]
  rw [listSkip (publicRtaSeg name args) _ args.availabilityZones.length _
        (by simp [publicRtaSeg])]
  rw [natSeg, if_neg (by simp [hnat])]
  rw [listTake ((List.range args.availabilityZones.length).map (mkPrivateRtPlain name args)) _ i
        (by simpa using h)]
  exact rangeMapGet _ h

/-! ### Property accessors used by the claims -/

/-- The tag set of a declared resource (empty for the two untagged kinds,
route table associations and role policies). -/
def tagsOf (r : Resource) : Tags :=
  match r.props with
  | .vpc _ _ _ _ t => t
  | .internetGateway _ t => t
  | .subnet _ _ _ _ t => t
  | .routeTable _ _ t => t
  | .routeTableAssociation _ _ => []
  | .eip _ t => t
  | .natGateway _ _ t => t
  | .defaultSecurityGroup _ _ t => t
  | .logGroup _ _ t => t
  | .iamRole _ t => t
  | .rolePolicy _ _ _ => []
  | .flowLog _ _ _ _ t => t

/-- Is `r` a route table declaration. -/
def isRouteTable (r : Resource) : Bool :=
  match r.props with
  | .routeTable _ _ _ => true
  | _ => false

/-- Is `r` a private route table: a route table tagged `Type: private`. -/
def isPrivateRouteTable (r : Resource) : Bool :=
  isRouteTable r && decide (("Type", "private") ∈ tagsOf r)

/-- The `allocationId` binding of a NAT gateway. -/
def natAllocationOf (r : Resource) : Option Ref :=
  match r.props with
  | .natGateway a _ _ => some a
  | _ => none

/-- The `subnetId` binding of a NAT gateway. -/
def natSubnetOf (r : Resource) : Option Ref :=
  match r.props with
  | .natGateway _ s _ => some s
  | _ => none

/-- The `routes` property of a route table (`none` when absent). -/
def routesOf (r : Resource) : Option (List Route) :=
  match r.props with
  | .routeTable _ rs _ => rs
  | _ => none

/-- Does `r` declare a default route (destination 0.0.0.0/0). -/
def hasDefaultRoute (r : Resource) : Bool :=
  match routesOf r with
  | none => false
  | some rs => rs.any (fun rt => rt.destCidrBlock == "0.0.0.0/0")

/-- Is `r` an elastic address declaration. -/
def isEip (r : Resource) : Bool :=
  match r.props with
  | .eip _ _ => true
  | _ => false

/-- Is `r` a NAT gateway declaration. -/
def isNatGateway (r : Resource) : Bool :=
  match r.props with
  | .natGateway _ _ _ => true
  | _ => false

/-- Is `r` a log group declaration. -/
def isLogGroup (r : Resource) : Bool :=
  match r.props with
  | .logGroup _ _ _ => true
  | _ => false

/-- Is `r` an IAM role declaration. -/
def isIamRole (r : Resource) : Bool :=
  match r.props with
  | .iamRole _ _ => true
  | _ => false

/-- Is `r` a role policy declaration. -/
def isRolePolicy (r : Resource) : Bool :=
  match r.props with
  | .rolePolicy _ _ _ => true
  | _ => false

/-- Is `r` a flow log declaration. -/
def isFlowLog (r : Resource) : Bool :=
  match r.props with
  | .flowLog _ _ _ _ _ => true
  | _ => false

/-- Number of resources of the graph satisfying `p`. -/
def countP (g : List Resource) (p : Resource → Bool) : Nat := (g.filter p).length

/-- C1: for every valid configuration the output bundle has one public and
one private subnet id per availability zone
(len(publicSubnetIds) = len(zones) = len(privateSubnetIds)), and both id
lists are ordered to match the input zone order: the id at position i is
the deferred id of the subnet declared for zone i. -/
theorem subnet_id_lists_match_zone_order (name : String) (args : VpcArgs)
    (_hv : validateArgs args = .ok ()) :
    (vpcOutputs name args).publicSubnetIds.length = args.availabilityZones.length ∧
    (vpcOutputs name args).privateSubnetIds.length = args.availabilityZones.length ∧
    (∀ i, i < args.availabilityZones.length →
      ∃ rp rq : Resource,
        (vpcOutputs name args).publicSubnetIds[i]? = some (.resId (2 + i)) ∧
        (graphResources name args)[2 + i]? = some rp ∧
        isPublicSubnet rp = true ∧ subnetZone rp = some (zoneOf args i) ∧
        (vpcOutputs name args).privateSubnetIds[i]? =
          some (.resId (2 + args.availabilityZones.length + i)) ∧
        (graphResources name args)[2 + args.availabilityZones.length + i]? = some rq ∧
        isPrivateSubnet rq = true ∧ subnetZone rq = some (zoneOf args i)) := by
  refine ⟨by simp [vpcOutputs], by simp [vpcOutputs], ?_⟩
  intro i hi
  refine ⟨mkPublicSubnet name args i, mkPrivateSubnet name args i,
    ?_, graph_publicSubnet name args hi, ?_, ?_,
    ?_, graph_privateSubnet name args hi, ?_, ?_⟩
  · simp [vpcOutputs, List.getElem?_map, List.getElem?_range, hi]
  · simp [isPublicSubnet, mkPublicSubnet]
  · simp [subnetZone, mkPublicSubnet]
  · simp [vpcOutputs, List.getElem?_map, List.getElem?_range, hi]
  · simp [isPrivateSubnet, mkPrivateSubnet]
  · simp [subnetZone, mkPrivateSubnet]

/-- Witness for C1 at the three-zone example configuration of the
repository. -/
theorem subnet_id_lists_match_zone_order_witness :
    validateArgs
      ⟨"172.16.0.0/16", ["us-east-1a", "us-east-1b", "us-east-1c"],
       ["172.16.1.0/24", "172.16.2.0/24", "172.16.3.0/24"],
       ["172.16.11.0/24", "172.16.12.0/24", "172.16.13.0/24"],
       "production", "enterprise-platform", some "default", some true,
       some true, some 30, some [("Owner", "platform-team")]⟩ = .ok () ∧
    (vpcOutputs "advanced-vpc"
      ⟨"172.16.0.0/16", ["us-east-1a", "us-east-1b", "us-east-1c"],
       ["172.16.1.0/24", "172.16.2.0/24", "172.16.3.0/24"],
       ["172.16.11.0/24", "172.16.12.0/24", "172.16.13.0/24"],
       "production", "enterprise-platform", some "default", some true,
       some true, some 30, some [("Owner", "platform-team")]⟩).publicSubnetIds.length =
      3 := by
  constructor
  · decide
  · have h := subnet_id_lists_match_zone_order "advanced-vpc"
      ⟨"172.16.0.0/16", ["us-east-1a", "us-east-1b", "us-east-1c"],
       ["172.16.1.0/24", "172.16.2.0/24", "172.16.3.0/24"],
       ["172.16.11.0/24", "172.16.12.0/24", "172.16.13.0/24"],
       "production", "enterprise-platform", some "default", some true,
       some true, some 30, some [("Owner", "platform-team")]⟩ (by decide)
    simpa using h.1

/-! ### Counting machinery -/

theorem countP_append (g₁ g₂ : List Resource) (p : Resource → Bool) :
    countP (g₁ ++ g₂) p = countP g₁ p + countP g₂ p := by
  simp [countP, List.filter_append]

theorem countP_rangeMap_false (f : Nat → Resource) (n : Nat) (p : Resource → Bool)
    (h : ∀ i, p (f i) = false) : countP ((List.range n).map f) p = 0 := by
  unfold countP
  have : ((List.range n).map f).filter p = [] := by
    rw [List.filter_eq_nil_iff]
    intro a ha
    obtain ⟨i, _, rfl⟩ := List.mem_map.mp ha
    simp [h i]
  simp [this]

theorem countP_rangeMap_true (f : Nat → Resource) (n : Nat) (p : Resource → Bool)
    (h : ∀ i, p (f i) = true) : countP ((List.range n).map f) p = n := by
  unfold countP
  have : ((List.range n).map f).filter p = (List.range n).map f := by
    rw [List.filter_eq_self]
    intro a ha
    obtain ⟨i, _, rfl⟩ := List.mem_map.mp ha
    exact h i
  simp [this]

theorem countP_graph (name : String) (args : VpcArgs) (p : Resource → Bool) :
    countP (graphResources name args) p =
      ((if p (vpcRes name args) then 1 else 0) + (if p (igwRes name args) then 1 else 0) +
       countP (publicSubnetsSeg name args) p + countP (privateSubnetsSeg name args) p +
       (if p (publicRtRes name args) then 1 else 0) + countP (publicRtaSeg name args) p +
       countP (natSeg name args) p + countP (privateRtaSeg name args) p +
       (if p (sgRes name args) then 1 else 0) + countP (flowSeg name args) p) := by
  simp only [graphResources, countP, List.filter_append, List.length_append]
  cases h0 : p (vpcRes name args) <;> cases h1 : p (igwRes name args) <;>
    cases h2 : p (publicRtRes name args) <;> cases h3 : p (sgRes name args) <;>
    simp [List.filter_cons, h0, h1, h2, h3]

/-! ### The NAT and flow-log flags -/

theorem natEnabledOf_eq_true {args : VpcArgs} (h : args.enableNatGateway ≠ some false) :
    natEnabledOf args = true := by
  unfold natEnabledOf
  cases heq : args.enableNatGateway with
  | none => rfl
  | some b =>
    cases b with
    | false => exact absurd heq h
    | true => rfl

theorem natEnabledOf_eq_false {args : VpcArgs} (h : args.enableNatGateway = some false) :
    natEnabledOf args = false := by
  simp [natEnabledOf, h]

theorem flowEnabledOf_eq_true {args : VpcArgs} (h : args.enableFlowLogs ≠ some false) :
    flowEnabledOf args = true := by
  unfold flowEnabledOf
  cases heq : args.enableFlowLogs with
  | none => rfl
  | some b =>
    cases b with
    | false => exact absurd heq h
    | true => rfl

theorem flowEnabledOf_eq_false {args : VpcArgs} (h : args.enableFlowLogs = some false) :
    flowEnabledOf args = false := by
  simp [flowEnabledOf, h]

/-! ### Resource counts of the graph -/

theorem countP_flowSeg_zero (name : String) (args : VpcArgs) (p : Resource → Bool)
    (h1 : p (flowLogGroupRes name args) = false) (h2 : p (flowLogRoleRes name args) = false)
    (h3 : p (flowLogPolicyRes name args) = false) (h4 : p (flowLogRes name args) = false) :
    countP (flowSeg name args) p = 0 := by
  unfold flowSeg
  cases hf : flowEnabledOf args <;>
    simp [hf, countP, List.filter_cons, h1, h2, h3, h4]

theorem countP_eip_graph (name : String) (args : VpcArgs)
    (hnat : natEnabledOf args = true) :
    countP (graphResources name args) isEip = args.availabilityZones.length := by
  rw [countP_graph]
  rw [natSeg, if_pos hnat, countP_append, countP_append]
  simp only [publicSubnetsSeg, privateSubnetsSeg, publicRtaSeg, privateRtaSeg]
  rw [countP_rangeMap_false (mkPublicSubnet name args) _ isEip (fun _ => rfl)]
  rw [countP_rangeMap_false (mkPrivateSubnet name args) _ isEip (fun _ => rfl)]
  rw [countP_rangeMap_false (mkPublicRta name args) _ isEip (fun _ => rfl)]
  rw [countP_rangeMap_false (mkPrivateRta name args) _ isEip (fun _ => rfl)]
  rw [countP_rangeMap_true (mkNatEip name args) _ isEip (fun _ => rfl)]
  rw [countP_rangeMap_false (mkNatGateway name args) _ isEip (fun _ => rfl)]
  rw [countP_rangeMap_false (mkPrivateRtNat name args) _ isEip (fun _ => rfl)]
  rw [countP_flowSeg_zero name args isEip rfl rfl rfl rfl]
  simp [isEip, vpcRes, igwRes, publicRtRes, sgRes]

theorem countP_natGateway_graph (name : String) (args : VpcArgs)
    (hnat : natEnabledOf args = true) :
    countP (graphResources name args) isNatGateway = args.availabilityZones.length := by
  rw [countP_graph]
  rw [natSeg, if_pos hnat, countP_append, countP_append]
  simp only [publicSubnetsSeg, privateSubnetsSeg, publicRtaSeg, privateRtaSeg]
  rw [countP_rangeMap_false (mkPublicSubnet name args) _ isNatGateway (fun _ => rfl)]
  rw [countP_rangeMap_false (mkPrivateSubnet name args) _ isNatGateway (fun _ => rfl)]
  rw [countP_rangeMap_false (mkPublicRta name args) _ isNatGateway (fun _ => rfl)]
  rw [countP_rangeMap_false (mkPrivateRta name args) _ isNatGateway (fun _ => rfl)]
  rw [countP_rangeMap_false (mkNatEip name args) _ isNatGateway (fun _ => rfl)]
  rw [countP_rangeMap_true (mkNatGateway name args) _ isNatGateway (fun _ => rfl)]
  rw [countP_rangeMap_false (mkPrivateRtNat name args) _ isNatGateway (fun _ => rfl)]
  rw [countP_flowSeg_zero name args isNatGateway rfl rfl rfl rfl]
  simp [isNatGateway, vpcRes, igwRes, publicRtRes, sgRes]

/-- C2: with the NAT flag enabled there is one elastic address and one NAT
gateway per zone; the NAT gateway at zone index i is bound to the elastic
address at index i and the public subnet at index i;
len(natGatewayIds) = len(zones); and the private route table at index i has
a single default route 0.0.0.0/0 whose target is the NAT gateway of the
same zone index. -/
theorem nat_gateways_one_per_zone (name : String) (args : VpcArgs)
    (_hv : validateArgs args = .ok ())
    (hnat : args.enableNatGateway ≠ some false) :
    countP (graphResources name args) isEip = args.availabilityZones.length ∧
    countP (graphResources name args) isNatGateway = args.availabilityZones.length ∧
    (vpcOutputs name args).natGatewayIds.length = args.availabilityZones.length ∧
    ∀ i, i < args.availabilityZones.length →
      ∃ rg rt : Resource,
        (graphResources name args)[3 + 4 * args.availabilityZones.length + i]? = some rg ∧
        isNatGateway rg = true ∧
        natAllocationOf rg = some (.resId (3 + 3 * args.availabilityZones.length + i)) ∧
        natSubnetOf rg = some (.resId (2 + i)) ∧
        (graphResources name args)[3 + 3 * args.availabilityZones.length + i]? =
          some (mkNatEip name args i) ∧
        isEip (mkNatEip name args i) = true ∧
        (vpcOutputs name args).natGatewayIds[i]? =
          some (.resId (3 + 4 * args.availabilityZones.length + i)) ∧
        (graphResources name args)[3 + 5 * args.availabilityZones.length + i]? = some rt ∧
        isPrivateRouteTable rt = true ∧
        routesOf rt = some [⟨"0.0.0.0/0", none,
          some (.resId (3 + 4 * args.availabilityZones.length + i))⟩] ∧
        (vpcOutputs name args).privateRouteTableIds[i]? =
          some (.resId (3 + 5 * args.availabilityZones.length + i)) := by
  have hn : natEnabledOf args = true := natEnabledOf_eq_true hnat
  refine ⟨countP_eip_graph name args hn, countP_natGateway_graph name args hn, ?_, ?_⟩
  · simp [vpcOutputs, hn]
  · intro i hi
    refine ⟨mkNatGateway name args i, mkPrivateRtNat name args i,
      graph_natGateway name args hn hi, rfl, rfl, rfl,
      graph_eip name args hn hi, rfl, ?_, graph_privateRtNat name args hn hi, ?_, rfl, ?_⟩
    · simp [vpcOutputs, hn, List.getElem?_map, List.getElem?_range, hi]
    · simp [isPrivateRouteTable, isRouteTable, tagsOf, mkPrivateRtNat]
    · simp [vpcOutputs, idxPrivateRt, hn, List.getElem?_map, List.getElem?_range, hi]

/-- Witness for C2 at the three-zone example configuration of the
repository. -/
theorem nat_gateways_one_per_zone_witness :
    validateArgs
      ⟨"172.16.0.0/16", ["us-east-1a", "us-east-1b", "us-east-1c"],
       ["172.16.1.0/24", "172.16.2.0/24", "172.16.3.0/24"],
       ["172.16.11.0/24", "172.16.12.0/24", "172.16.13.0/24"],
       "production", "enterprise-platform", some "default", some true,
       some true, some 30, some [("Owner", "platform-team")]⟩ = .ok () ∧
    (vpcOutputs "advanced-vpc"
      ⟨"172.16.0.0/16", ["us-east-1a", "us-east-1b", "us-east-1c"],
       ["172.16.1.0/24", "172.16.2.0/24", "172.16.3.0/24"],
       ["172.16.11.0/24", "172.16.12.0/24", "172.16.13.0/24"],
       "production", "enterprise-platform", some "default", some true,
       some true, some 30, some [("Owner", "platform-team")]⟩).natGatewayIds.length = 3 := by
  constructor
  · decide
  · have h := nat_gateways_one_per_zone "advanced-vpc"
      ⟨"172.16.0.0/16", ["us-east-1a", "us-east-1b", "us-east-1c"],
       ["172.16.1.0/24", "172.16.2.0/24", "172.16.3.0/24"],
       ["172.16.11.0/24", "172.16.12.0/24", "172.16.13.0/24"],
       "production", "enterprise-platform", some "default", some true,
       some true, some 30, some [("Owner", "platform-team")]⟩ (by decide) (by decide)
    simpa using h.2.2.1

/-- Case analysis of membership in the resource graph: every declared
resource is one of the explicitly constructed ones, with the NAT and
flow-log segments guarded by their flags. -/
theorem mem_graph_cases (name : String) (args : VpcArgs) {r : Resource}
    (hr : r ∈ graphResources name args) :
    r = vpcRes name args ∨ r = igwRes name args ∨
    (∃ i, i < args.availabilityZones.length ∧ mkPublicSubnet name args i = r) ∨
    (∃ i, i < args.availabilityZones.length ∧ mkPrivateSubnet name args i = r) ∨
    r = publicRtRes name args ∨
    (∃ i, i < args.availabilityZones.length ∧ mkPublicRta name args i = r) ∨
    (natEnabledOf args = true ∧
      ((∃ i, i < args.availabilityZones.length ∧ mkNatEip name args i = r) ∨
       (∃ i, i < args.availabilityZones.length ∧ mkNatGateway name args i = r) ∨
       (∃ i, i < args.availabilityZones.length ∧ mkPrivateRtNat name args i = r))) ∨
    (natEnabledOf args = false ∧
      (∃ i, i < args.availabilityZones.length ∧ mkPrivateRtPlain name args i = r)) ∨
    (∃ i, i < args.availabilityZones.length ∧ mkPrivateRta name args i = r) ∨
    r = sgRes name args ∨
    (flowEnabledOf args = true ∧
      (r = flowLogGroupRes name args ∨ r = flowLogRoleRes name args ∨
       r = flowLogPolicyRes name args ∨ r = flowLogRes name args)) := by
  cases hn : natEnabledOf args <;> cases hfl : flowEnabledOf args <;>
    simpa only [graphResources, natSeg, flowSeg, hn, hfl, if_true, if_false,
      Bool.false_eq_true, Bool.true_eq_false, List.mem_append, List.mem_cons,
      List.mem_singleton, List.not_mem_nil, or_false, false_or, List.mem_map,
      List.mem_range, publicSubnetsSeg, privateSubnetsSeg, publicRtaSeg,
      privateRtaSeg, true_and, false_and, and_true, eq_self_iff_true,
      or_assoc] using hr

/-- C3: with the NAT flag set to false the natGatewayIds output is the
empty list and every declared private route table has no routes property
at all, in particular no default route. -/
theorem nat_disabled_no_default_routes (name : String) (args : VpcArgs)
    (_hv : validateArgs args = .ok ())
    (hnat : args.enableNatGateway = some false) :
    (vpcOutputs name args).natGatewayIds = [] ∧
    ∀ r ∈ graphResources name args, isPrivateRouteTable r = true →
      routesOf r = none ∧ hasDefaultRoute r = false := by
  have hn : natEnabledOf args = false := natEnabledOf_eq_false hnat
  refine ⟨by simp [vpcOutputs, hn], ?_⟩
  intro r hr hpriv
  rcases mem_graph_cases name args hr with rfl | rfl | ⟨i, _, rfl⟩ | ⟨i, _, rfl⟩ |
    rfl | ⟨i, _, rfl⟩ | ⟨hg, _⟩ | ⟨_, i, _, rfl⟩ | ⟨i, _, rfl⟩ | rfl |
    ⟨_, rfl | rfl | rfl | rfl⟩ <;>
    first
      | exact ⟨rfl, rfl⟩
      | (rw [hn] at hg; cases hg)
      | simp [isPrivateRouteTable, isRouteTable, tagsOf, vpcRes, igwRes,
          publicRtRes, sgRes, mkPublicSubnet, mkPrivateSubnet, mkPublicRta,
          mkPrivateRta, flowLogGroupRes, flowLogRoleRes, flowLogPolicyRes,
          flowLogRes] at hpriv

/-- Witness for C3 at a one-zone configuration with NAT disabled. -/
theorem nat_disabled_no_default_routes_witness :
    validateArgs
      ⟨"10.0.0.0/16", ["us-west-2a"], ["10.0.1.0/24"], ["10.0.11.0/24"],
       "dev", "demo", none, some false, some false, none, none⟩ = .ok () ∧
    (vpcOutputs "n"
      ⟨"10.0.0.0/16", ["us-west-2a"], ["10.0.1.0/24"], ["10.0.11.0/24"],
       "dev", "demo", none, some false, some false, none, none⟩).natGatewayIds = [] := by
  constructor
  · decide
  · exact (nat_disabled_no_default_routes "n"
      ⟨"10.0.0.0/16", ["us-west-2a"], ["10.0.1.0/24"], ["10.0.11.0/24"],
       "dev", "demo", none, some false, some false, none, none⟩
      (by decide) (by decide)).1

/-- The retention of a log group resource. -/
def logRetentionOf (r : Resource) : Option Int :=
  match r.props with
  | .logGroup _ d _ => some d
  | _ => none

/-- For a classifier false on everything outside the flow segment, the
graph count reduces to the flow segment count. -/
theorem countP_graph_flow_only (name : String) (args : VpcArgs) (p : Resource → Bool)
    (h0 : p (vpcRes name args) = false) (h1 : p (igwRes name args) = false)
    (h2 : ∀ i, p (mkPublicSubnet name args i) = false)
    (h3 : ∀ i, p (mkPrivateSubnet name args i) = false)
    (h4 : p (publicRtRes name args) = false)
    (h5 : ∀ i, p (mkPublicRta name args i) = false)
    (h6 : ∀ i, p (mkNatEip name args i) = false)
    (h7 : ∀ i, p (mkNatGateway name args i) = false)
    (h8 : ∀ i, p (mkPrivateRtNat name args i) = false)
    (h9 : ∀ i, p (mkPrivateRtPlain name args i) = false)
    (h10 : ∀ i, p (mkPrivateRta name args i) = false)
    (h11 : p (sgRes name args) = false) :
    countP (graphResources name args) p = countP (flowSeg name args) p := by
  rw [countP_graph]
  simp only [publicSubnetsSeg, privateSubnetsSeg, publicRtaSeg, privateRtaSeg]
  rw [countP_rangeMap_false _ _ p h2, countP_rangeMap_false _ _ p h3,
      countP_rangeMap_false _ _ p h5, countP_rangeMap_false _ _ p h10]
  have hnatseg : countP (natSeg name args) p = 0 := by
    unfold natSeg
    cases hn : natEnabledOf args
    · simp only [hn, Bool.false_eq_true, if_false]
      exact countP_rangeMap_false _ _ p h9
    · simp only [hn, if_true]
      rw [countP_append, countP_append, countP_rangeMap_false _ _ p h6,
          countP_rangeMap_false _ _ p h7, countP_rangeMap_false _ _ p h8]
  rw [hnatseg]
  simp [h0, h1, h4, h11]

/-- The flow log, when enabled, sits three places after the log group. -/
theorem graph_flowLog (name : String) (args : VpcArgs)
    (hflow : flowEnabledOf args = true) :
    (graphResources name args)[idxFlowBase args + 3]? =
      some (flowLogRes name args) := by
  have hP : ([vpcRes name args, igwRes name args] ++ publicSubnetsSeg name args ++
      privateSubnetsSeg name args ++ [publicRtRes name args] ++
      publicRtaSeg name args ++ natSeg name args ++ privateRtaSeg name args ++
      [sgRes name args]).length = idxFlowBase args := by
    cases hn : natEnabledOf args <;>
      simp [publicSubnetsSeg, privateSubnetsSeg, publicRtaSeg, privateRtaSeg,
        natSeg, hn, idxFlowBase, idxSg] <;> omega
  rw [graphResources, listSkip _ _ (idxFlowBase args) 3 hP]
  rw [flowSeg, if_pos hflow]
  rfl

/-- C4: with flow logging enabled the complete logging bundle (log sink,
trust role, role policy, flow-log binding) is declared exactly once each
and the flowLogId output is the deferred id of the declared flow log; with
the flag false none of the four logging resources is declared and the
flowLogId output is the explicit absent value. -/
theorem flow_logging_all_or_nothing (name : String) (args : VpcArgs)
    (_hv : validateArgs args = .ok ()) :
    (args.enableFlowLogs ≠ some false →
      countP (graphResources name args) isLogGroup = 1 ∧
      countP (graphResources name args) isIamRole = 1 ∧
      countP (graphResources name args) isRolePolicy = 1 ∧
      countP (graphResources name args) isFlowLog = 1 ∧
      (graphResources name args)[idxFlowBase args + 3]? =
        some (flowLogRes name args) ∧
      (vpcOutputs name args).flowLogId = .resId (idxFlowBase args + 3)) ∧
    (args.enableFlowLogs = some false →
      countP (graphResources name args) isLogGroup = 0 ∧
      countP (graphResources name args) isIamRole = 0 ∧
      countP (graphResources name args) isRolePolicy = 0 ∧
      countP (graphResources name args) isFlowLog = 0 ∧
      (vpcOutputs name args).flowLogId = .undef) := by
  have hlg := countP_graph_flow_only name args isLogGroup rfl rfl (fun _ => rfl)
    (fun _ => rfl) rfl (fun _ => rfl) (fun _ => rfl) (fun _ => rfl) (fun _ => rfl)
    (fun _ => rfl) (fun _ => rfl) rfl
  have hir := countP_graph_flow_only name args isIamRole rfl rfl (fun _ => rfl)
    (fun _ => rfl) rfl (fun _ => rfl) (fun _ => rfl) (fun _ => rfl) (fun _ => rfl)
    (fun _ => rfl) (fun _ => rfl) rfl
  have hrp := countP_graph_flow_only name args isRolePolicy rfl rfl (fun _ => rfl)
    (fun _ => rfl) rfl (fun _ => rfl) (fun _ => rfl) (fun _ => rfl) (fun _ => rfl)
    (fun _ => rfl) (fun _ => rfl) rfl
  have hfl := countP_graph_flow_only name args isFlowLog rfl rfl (fun _ => rfl)
    (fun _ => rfl) rfl (fun _ => rfl) (fun _ => rfl) (fun _ => rfl) (fun _ => rfl)
    (fun _ => rfl) (fun _ => rfl) rfl
  constructor
  · intro h
    have hf : flowEnabledOf args = true := flowEnabledOf_eq_true h
    refine ⟨?_, ?_, ?_, ?_, graph_flowLog name args hf, ?_⟩
    · rw [hlg, flowSeg, if_pos hf]; rfl
    · rw [hir, flowSeg, if_pos hf]; rfl
    · rw [hrp, flowSeg, if_pos hf]; rfl
    · rw [hfl, flowSeg, if_pos hf]; rfl
    · simp [vpcOutputs, hf]
  · intro h
    have hf : flowEnabledOf args = false := flowEnabledOf_eq_false h
    refine ⟨?_, ?_, ?_, ?_, ?_⟩
    · rw [hlg, flowSeg]; simp [hf, countP]
    · rw [hir, flowSeg]; simp [hf, countP]
    · rw [hrp, flowSeg]; simp [hf, countP]
    · rw [hfl, flowSeg]; simp [hf, countP]
    · simp [vpcOutputs, hf]

/-- Witness for C4 at the three-zone example configuration (flow logs
enabled). -/
theorem flow_logging_all_or_nothing_witness :
    validateArgs
      ⟨"172.16.0.0/16", ["us-east-1a", "us-east-1b", "us-east-1c"],
       ["172.16.1.0/24", "172.16.2.0/24", "172.16.3.0/24"],
       ["172.16.11.0/24", "172.16.12.0/24", "172.16.13.0/24"],
       "production", "enterprise-platform", some "default", some true,
       some true, some 30, some [("Owner", "platform-team")]⟩ = .ok () ∧
    (vpcOutputs "advanced-vpc"
      ⟨"172.16.0.0/16", ["us-east-1a", "us-east-1b", "us-east-1c"],
       ["172.16.1.0/24", "172.16.2.0/24", "172.16.3.0/24"],
       ["172.16.11.0/24", "172.16.12.0/24", "172.16.13.0/24"],
       "production", "enterprise-platform", some "default", some true,
       some true, some 30, some [("Owner", "platform-team")]⟩).flowLogId =
      .resId 28 := by
  constructor
  · decide
  · have h := (flow_logging_all_or_nothing "advanced-vpc"
      ⟨"172.16.0.0/16", ["us-east-1a", "us-east-1b", "us-east-1c"],
       ["172.16.1.0/24", "172.16.2.0/24", "172.16.3.0/24"],
       ["172.16.11.0/24", "172.16.12.0/24", "172.16.13.0/24"],
       "production", "enterprise-platform", some "default", some true,
       some true, some 30, some [("Owner", "platform-team")]⟩ (by decide)).1
      (by decide)
    have h6 := h.2.2.2.2.2
    simpa using h6

/-! ### C5: the validator as a first-violation scan of a fixed checklist -/

/-- Modelled from the spec, section 4.1: run an ordered list of checks,
each a violation condition paired with its message, and fail on the first
violated one without accumulating further errors. -/
def firstError : List (Bool × String) → Except String Unit
  | [] => .ok ()
  | (b, msg) :: rest => if b then .error msg else firstError rest

/-- Modelled from the spec, section 4.1 rule 7: the three conditions a
single CIDR is checked against, in order: syntax, prefix range, octet
range. -/
def cidrCheckItems (c : String) (nm : String) : List (Bool × String) :=
  [(decide (cidrRegexTest c.toList = false),
    nm ++ " must be a valid CIDR block (e.g., 10.0.0.0/16)"),
   (decide (digitsToNat ((splitOnChar '/' c.toList).getD 1 []) < 8 ∨
            digitsToNat ((splitOnChar '/' c.toList).getD 1 []) > 30),
    nm ++ " prefix must be between 8 and 30"),
   (((splitOnChar '.' ((splitOnChar '/' c.toList).getD 0 [])).map digitsToNat).any
      (fun p => 255 < p),
    nm ++ " contains invalid IP address")]

/-- Modelled from the spec, section 4.1 rule 8: the per-index CIDR checks
of a list, each reporting its own index. -/
def cidrListItems (label : String) (i : Nat) : List String → List (Bool × String)
  | [] => []
  | c :: rest =>
    cidrCheckItems c (label ++ toString i ++ " CIDR") ++ cidrListItems label (i + 1) rest

/-- Modelled from the spec, section 4.1: the full ordered checklist of the
validator — presence and shape checks 1-6, then the CIDR syntax checks of
the network block, the public list and the private list. -/
def checkItems (args : VpcArgs) : List (Bool × String) :=
  (decide (args.cidrBlock = ""), "cidrBlock is required") ::
  (decide (args.availabilityZones.length = 0),
   "availabilityZones must be provided and non-empty") ::
  (decide (args.publicSubnetCidrs.length ≠ args.availabilityZones.length),
   "publicSubnetCidrs must be provided and match the number of availability zones") ::
  (decide (args.privateSubnetCidrs.length ≠ args.availabilityZones.length),
   "privateSubnetCidrs must be provided and match the number of availability zones") ::
  (decide (args.environment = ""), "environment is required") ::
  (decide (args.project = ""), "project is required") ::
  (cidrCheckItems args.cidrBlock "VPC CIDR" ++
   (cidrListItems "Public subnet " 0 args.publicSubnetCidrs ++
    cidrListItems "Private subnet " 0 args.privateSubnetCidrs))

theorem firstError_cons_true {b : Bool} (m : String) (rest : List (Bool × String))
    (h : b = true) : firstError ((b, m) :: rest) = .error m := by
  simp [firstError, h]

theorem firstError_cons_false {b : Bool} (m : String) (rest : List (Bool × String))
    (h : b = false) : firstError ((b, m) :: rest) = firstError rest := by
  simp [firstError, h]

theorem firstError_append (xs ys : List (Bool × String)) :
    firstError (xs ++ ys) =
      match firstError xs with
      | .error e => .error e
      | .ok _ => firstError ys := by
  induction xs with
  | nil => rfl
  | cons x rest ih =>
    obtain ⟨b, msg⟩ := x
    cases b <;> simp [firstError, ih]

theorem validateCidrBlock_eq_firstError (c nm : String) :
    validateCidrBlock c nm = firstError (cidrCheckItems c nm) := by
  unfold validateCidrBlock cidrCheckItems
  by_cases h1 : cidrRegexTest c.toList = false
  · rw [if_pos h1, firstError_cons_true _ _ (by simpa using h1)]
  rw [if_neg h1, firstError_cons_false _ _ (by simpa using h1)]
  by_cases h2 : digitsToNat ((splitOnChar '/' c.toList).getD 1 []) < 8 ∨
      digitsToNat ((splitOnChar '/' c.toList).getD 1 []) > 30
  · rw [if_pos h2, firstError_cons_true _ _ (by simpa using h2)]
  rw [if_neg h2, firstError_cons_false _ _ (by simpa using h2)]
  by_cases h3 : (((splitOnChar '.' ((splitOnChar '/' c.toList).getD 0 [])).map
      digitsToNat).any (fun p => 255 < p)) = true
  · rw [if_pos h3, firstError_cons_true _ _ (by simpa using h3)]
  rw [if_neg h3, firstError_cons_false _ _ (by simpa using h3)]
  rfl

theorem validateCidrList_eq_firstError (label : String) (i : Nat) (cs : List String) :
    validateCidrList label i cs = firstError (cidrListItems label i cs) := by
  induction cs generalizing i with
  | nil => rfl
  | cons c rest ih =>
    simp only [validateCidrList, cidrListItems]
    rw [firstError_append, ← validateCidrBlock_eq_firstError]
    cases h : validateCidrBlock c (label ++ toString i ++ " CIDR") <;> simp [ih]

/-- C5: the validator either succeeds or fails with exactly the message of
the first violated constraint, in the fixed order: address block present,
zone list non-empty, public list length, private list length, environment,
project, then the three CIDR conditions of the network block and of each
public and private CIDR in index order; it never accumulates further
errors. -/
theorem validator_fails_on_first_violation (args : VpcArgs) :
    validateArgs args = firstError (checkItems args) := by
  unfold validateArgs checkItems
  by_cases h1 : args.cidrBlock = ""
  · rw [if_pos h1, firstError_cons_true _ _ (by simp [h1])]
  rw [if_neg h1, firstError_cons_false _ _ (by simp [h1])]
  by_cases h2 : args.availabilityZones.length = 0
  · rw [if_pos h2, firstError_cons_true _ _ (by simp [h2])]
  rw [if_neg h2, firstError_cons_false _ _ (by simp [h2])]
  by_cases h3 : args.publicSubnetCidrs.length ≠ args.availabilityZones.length
  · rw [if_pos h3, firstError_cons_true _ _ (by simp [h3])]
  rw [if_neg h3, firstError_cons_false _ _ (by simp; omega)]
  by_cases h4 : args.privateSubnetCidrs.length ≠ args.availabilityZones.length
  · rw [if_pos h4, firstError_cons_true _ _ (by simp [h4])]
  rw [if_neg h4, firstError_cons_false _ _ (by simp; omega)]
  by_cases h5 : args.environment = ""
  · rw [if_pos h5, firstError_cons_true _ _ (by simp [h5])]
  rw [if_neg h5, firstError_cons_false _ _ (by simp [h5])]
  by_cases h6 : args.project = ""
  · rw [if_pos h6, firstError_cons_true _ _ (by simp [h6])]
  rw [if_neg h6, firstError_cons_false _ _ (by simp [h6])]
  rw [firstError_append, firstError_append, ← validateCidrBlock_eq_firstError,
    ← validateCidrList_eq_firstError, ← validateCidrList_eq_firstError]

/-- C7: when validation fails, the constructor rethrows that very error
and declares no resource at all. -/
theorem validation_error_before_declaration (name : String) (args : VpcArgs)
    (e : String) (h : validateArgs args = .error e) :
    vpcConstructor name args = .error e ∧
    declaredResources (vpcConstructor name args) = [] := by
  simp [vpcConstructor, h, declaredResources]

/-- Witness for C7: three zones but only two public CIDRs fail naming
publicSubnetCidrs, and no resource is declared. -/
theorem validation_error_before_declaration_witness :
    validateArgs
      ⟨"10.0.0.0/16", ["a", "b", "c"], ["10.0.1.0/24", "10.0.2.0/24"],
       ["10.0.11.0/24", "10.0.12.0/24", "10.0.13.0/24"], "dev", "p",
       none, none, none, none, none⟩ =
      .error "publicSubnetCidrs must be provided and match the number of availability zones" ∧
    declaredResources (vpcConstructor "n"
      ⟨"10.0.0.0/16", ["a", "b", "c"], ["10.0.1.0/24", "10.0.2.0/24"],
       ["10.0.11.0/24", "10.0.12.0/24", "10.0.13.0/24"], "dev", "p",
       none, none, none, none, none⟩) = [] := by
  constructor
  · decide
  · exact (validation_error_before_declaration "n"
      ⟨"10.0.0.0/16", ["a", "b", "c"], ["10.0.1.0/24", "10.0.2.0/24"],
       ["10.0.11.0/24", "10.0.12.0/24", "10.0.13.0/24"], "dev", "p",
       none, none, none, none, none⟩
      "publicSubnetCidrs must be provided and match the number of availability zones"
      (by decide)).2

/-! ### C8: two independent passes differ only in engine identifiers -/

/-- A resource as realized by one engine apply pass: the declaration plus
the engine-assigned opaque physical identifier. -/
structure DeployedResource where
  res : Resource
  engineId : String
deriving DecidableEq, Repr

/-- One engine apply pass over a declared graph: the engine assigns each
declaration, in order, an identifier from its own supply. -/
def deploy (ids : Nat → String) (g : List Resource) : List DeployedResource :=
  g.enum.map (fun p => ⟨p.2, ids p.1⟩)

/-- Forget the engine-assigned identifiers of a pass. -/
def stripEngineIds (d : List DeployedResource) : List Resource :=
  d.map (fun x => x.res)

theorem stripEngineIds_deploy (ids : Nat → String) (g : List Resource) :
    stripEngineIds (deploy ids g) = g := by
  simp only [stripEngineIds, deploy, List.map_map]
  have h : ((fun x : DeployedResource => x.res) ∘
      fun p : Nat × Resource => DeployedResource.mk p.2 (ids p.1)) = Prod.snd := rfl
  rw [h, List.enum_map_snd]

/-- C8: constructing the component twice from the same configuration gives
the same successful result, and two independent engine passes over the
declared graph agree on everything (counts, per-resource properties and the
deferred cross-reference wiring embedded in them) once the engine-assigned
identifiers are stripped. -/
theorem construction_deterministic (name : String) (args : VpcArgs)
    (hv : validateArgs args = .ok ()) (ids1 ids2 : Nat → String) :
    vpcConstructor name args = .ok (buildGraph name args) ∧
    stripEngineIds (deploy ids1 (graphResources name args)) =
      stripEngineIds (deploy ids2 (graphResources name args)) ∧
    (deploy ids1 (graphResources name args)).length =
      (deploy ids2 (graphResources name args)).length := by
  refine ⟨by simp [vpcConstructor, hv], ?_, ?_⟩
  · rw [stripEngineIds_deploy, stripEngineIds_deploy]
  · simp [deploy]

/-- Witness for C8 with two distinct engine identifier supplies. -/
theorem construction_deterministic_witness :
    validateArgs
      ⟨"10.0.0.0/16", ["us-west-2a"], ["10.0.1.0/24"], ["10.0.11.0/24"],
       "dev", "demo", none, some false, some false, none, none⟩ = .ok () ∧
    stripEngineIds (deploy (fun n => "x-" ++ toString n)
        (graphResources "n"
          ⟨"10.0.0.0/16", ["us-west-2a"], ["10.0.1.0/24"], ["10.0.11.0/24"],
           "dev", "demo", none, some false, some false, none, none⟩)) =
      stripEngineIds (deploy (fun n => "y-" ++ toString n)
        (graphResources "n"
          ⟨"10.0.0.0/16", ["us-west-2a"], ["10.0.1.0/24"], ["10.0.11.0/24"],
           "dev", "demo", none, some false, some false, none, none⟩)) := by
  constructor
  · decide
  · exact (construction_deterministic "n"
      ⟨"10.0.0.0/16", ["us-west-2a"], ["10.0.1.0/24"], ["10.0.11.0/24"],
       "dev", "demo", none, some false, some false, none, none⟩ (by decide)
      (fun n => "x-" ++ toString n) (fun n => "y-" ++ toString n)).2.1

/-- C10: with flow logging enabled, a configured retention of 0 days (the
only falsy number reachable here), like an omitted one, yields a declared
log sink with the default retention of 7 days. -/
theorem retention_zero_defaults_to_seven (name : String) (args : VpcArgs)
    (hflow : args.enableFlowLogs ≠ some false)
    (hret : args.flowLogRetentionDays = some 0 ∨ args.flowLogRetentionDays = none) :
    (∃ r ∈ graphResources name args, isLogGroup r = true) ∧
    ∀ r ∈ graphResources name args, isLogGroup r = true →
      logRetentionOf r = some 7 := by
  have hf : flowEnabledOf args = true := flowEnabledOf_eq_true hflow
  constructor
  · exact ⟨flowLogGroupRes name args, by simp [graphResources, flowSeg, hf], rfl⟩
  · intro r hr hlg
    rcases mem_graph_cases name args hr with rfl | rfl | ⟨i, _, rfl⟩ | ⟨i, _, rfl⟩ |
      rfl | ⟨i, _, rfl⟩ | ⟨_, ⟨i, _, rfl⟩ | ⟨i, _, rfl⟩ | ⟨i, _, rfl⟩⟩ |
      ⟨_, i, _, rfl⟩ | ⟨i, _, rfl⟩ | rfl | ⟨_, rfl | rfl | rfl | rfl⟩ <;>
      first
        | exact Bool.noConfusion hlg
        | (rcases hret with h0 | h0 <;>
            simp [logRetentionOf, flowLogGroupRes, retentionOf, h0])

/-- Witness for C10 at a one-zone configuration with an explicitly
configured retention of 0 days. -/
theorem retention_zero_defaults_to_seven_witness :
    ((some 0 : Option Int) = some 0 ∨ (some 0 : Option Int) = none) ∧
    ∀ r ∈ graphResources "n"
        ⟨"10.0.0.0/16", ["us-west-2a"], ["10.0.1.0/24"], ["10.0.11.0/24"],
         "dev", "demo", none, some false, some true, some 0, none⟩,
      isLogGroup r = true → logRetentionOf r = some 7 := by
  refine ⟨Or.inl rfl, ?_⟩
  exact (retention_zero_defaults_to_seven "n"
    ⟨"10.0.0.0/16", ["us-west-2a"], ["10.0.1.0/24"], ["10.0.11.0/24"],
     "dev", "demo", none, some false, some true, some 0, none⟩
    (by decide) (Or.inl rfl)).2

/-! ### C9: where the caller extra tags end up -/

/-- JavaScript object key lookup over a literal tag list: the last binding
of a key wins, matching object literal and spread semantics. -/
def tagLast (ts : Tags) (k : String) : Option String :=
  (ts.reverse.find? (fun p => p.1 == k)).map (fun p => p.2)

/-- Replace only the caller extra tags of a configuration. -/
def setTags (args : VpcArgs) (t : Option Tags) : VpcArgs :=
  ⟨args.cidrBlock, args.availabilityZones, args.publicSubnetCidrs,
   args.privateSubnetCidrs, args.environment, args.project,
   args.instanceTenancy, args.enableNatGateway, args.enableFlowLogs,
   args.flowLogRetentionDays, t⟩

/-- All resources of the graph after the network itself. -/
def graphTail (name : String) (args : VpcArgs) : List Resource :=
  igwRes name args ::
    (publicSubnetsSeg name args ++ (privateSubnetsSeg name args ++
      ([publicRtRes name args] ++ (publicRtaSeg name args ++
        (natSeg name args ++ (privateRtaSeg name args ++
          ([sgRes name args] ++ flowSeg name args)))))))

theorem graph_eq_vpc_cons_tail (name : String) (args : VpcArgs) :
    graphResources name args = vpcRes name args :: graphTail name args := by
  simp [graphResources, graphTail, List.append_assoc]

theorem rangeMap_ext {α : Type} (f g : Nat → α) (n : Nat) (h : ∀ i, f i = g i) :
    (List.range n).map f = (List.range n).map g :=
  List.map_congr_left (fun a _ => h a)

theorem graphTail_ignores_extraTags (name : String) (args : VpcArgs) (t : Option Tags) :
    graphTail name (setTags args t) = graphTail name args := by
  unfold graphTail
  have h1 : igwRes name (setTags args t) = igwRes name args := rfl
  have h2 : publicSubnetsSeg name (setTags args t) = publicSubnetsSeg name args := by
    unfold publicSubnetsSeg
    exact rangeMap_ext _ _ _ (fun i => rfl)
  have h3 : privateSubnetsSeg name (setTags args t) = privateSubnetsSeg name args := by
    unfold privateSubnetsSeg
    exact rangeMap_ext _ _ _ (fun i => rfl)
  have h4 : publicRtRes name (setTags args t) = publicRtRes name args := rfl
  have h5 : publicRtaSeg name (setTags args t) = publicRtaSeg name args := by
    unfold publicRtaSeg
    exact rangeMap_ext _ _ _ (fun i => rfl)
  have h6 : natSeg name (setTags args t) = natSeg name args := by
    unfold natSeg
    have hc : natEnabledOf (setTags args t) = natEnabledOf args := rfl
    rw [hc]
    cases hn : natEnabledOf args
    · simp only [Bool.false_eq_true, if_false]
      exact rangeMap_ext _ _ _ (fun i => rfl)
    · simp only [if_true]
      rw [rangeMap_ext (mkNatEip name (setTags args t)) (mkNatEip name args) _
            (fun i => rfl),
          rangeMap_ext (mkNatGateway name (setTags args t)) (mkNatGateway name args) _
            (fun i => rfl),
          rangeMap_ext (mkPrivateRtNat name (setTags args t)) (mkPrivateRtNat name args) _
            (fun i => rfl)]
      rfl
  have h7 : privateRtaSeg name (setTags args t) = privateRtaSeg name args := by
    unfold privateRtaSeg
    exact rangeMap_ext _ _ _ (fun i => rfl)
  have h8 : sgRes name (setTags args t) = sgRes name args := rfl
  have h9 : flowSeg name (setTags args t) = flowSeg name args := rfl
  rw [h1, h2, h3, h4, h5, h6, h7, h8, h9]

theorem graphTail_keys (name : String) (args : VpcArgs) :
    ∀ r ∈ graphTail name args, ∀ kv ∈ tagsOf r,
      kv.1 ∈ (["Name", "Environment", "Project", "ManagedBy", "Type"] : List String) := by
  intro r hr
  have hr2 :
      r = igwRes name args ∨
      (∃ i, i < args.availabilityZones.length ∧ mkPublicSubnet name args i = r) ∨
      (∃ i, i < args.availabilityZones.length ∧ mkPrivateSubnet name args i = r) ∨
      r = publicRtRes name args ∨
      (∃ i, i < args.availabilityZones.length ∧ mkPublicRta name args i = r) ∨
      (natEnabledOf args = true ∧
        ((∃ i, i < args.availabilityZones.length ∧ mkNatEip name args i = r) ∨
         (∃ i, i < args.availabilityZones.length ∧ mkNatGateway name args i = r) ∨
         (∃ i, i < args.availabilityZones.length ∧ mkPrivateRtNat name args i = r))) ∨
      (natEnabledOf args = false ∧
        (∃ i, i < args.availabilityZones.length ∧ mkPrivateRtPlain name args i = r)) ∨
      (∃ i, i < args.availabilityZones.length ∧ mkPrivateRta name args i = r) ∨
      r = sgRes name args ∨
      (flowEnabledOf args = true ∧
        (r = flowLogGroupRes name args ∨ r = flowLogRoleRes name args ∨
         r = flowLogPolicyRes name args ∨ r = flowLogRes name args)) := by
    cases hn : natEnabledOf args <;> cases hfl : flowEnabledOf args <;>
      simpa only [graphTail, natSeg, flowSeg, hn, hfl, if_true, if_false,
        Bool.false_eq_true, Bool.true_eq_false, List.mem_append, List.mem_cons,
        List.mem_singleton, List.not_mem_nil, or_false, false_or, List.mem_map,
        List.mem_range, publicSubnetsSeg, privateSubnetsSeg, publicRtaSeg,
        privateRtaSeg, true_and, false_and, and_true, eq_self_iff_true,
        or_assoc] using hr
  rcases hr2 with rfl | ⟨i, _, rfl⟩ | ⟨i, _, rfl⟩ | rfl | ⟨i, _, rfl⟩ |
    ⟨_, ⟨i, _, rfl⟩ | ⟨i, _, rfl⟩ | ⟨i, _, rfl⟩⟩ | ⟨_, i, _, rfl⟩ |
    ⟨i, _, rfl⟩ | rfl | ⟨_, rfl | rfl | rfl | rfl⟩ <;>
    · intro kv hkv
      have hk := List.mem_map_of_mem Prod.fst hkv
      simp only [tagsOf, igwRes, mkPublicSubnet, mkPrivateSubnet, publicRtRes,
        mkPublicRta, mkNatEip, mkNatGateway, mkPrivateRtNat, mkPrivateRtPlain,
        mkPrivateRta, sgRes, flowLogGroupRes, flowLogRoleRes, flowLogPolicyRes,
        flowLogRes, List.map_cons, List.map_nil, List.mem_cons,
        List.not_mem_nil, or_false] at hk
      all_goals simp only [List.mem_cons, List.not_mem_nil, or_false]
      all_goals tauto

/-- C9 counterexample: at a concrete one-zone configuration it is false
that every resource other than the network carries only tags from the set
Name, Environment, Project, ManagedBy — the subnets and route tables also
carry a Type tag. -/
theorem extra_tags_only_on_vpc_counterexample :
    ¬ (∀ r ∈ graphTail "n"
        ⟨"10.0.0.0/16", ["us-west-2a"], ["10.0.1.0/24"], ["10.0.11.0/24"],
         "dev", "demo", none, some false, some false, none,
         some [("Owner", "team")]⟩,
        ∀ kv ∈ tagsOf r,
          kv.1 ∈ (["Name", "Environment", "Project", "ManagedBy"] : List String)) := by
  decide

/-- C9 (amended): the caller extra tags are merged only into the network
resource, whose tag set is the standard tags with the extras appended, so
that on a key collision the extra value wins; every other declared
resource is unchanged when the extra tags change, and carries only tags
whose keys are the standard keys plus the fixed Type marker. -/
theorem extra_tags_only_on_vpc (name : String) (args : VpcArgs) :
    tagsOf (vpcRes name args) =
      [("Name", name ++ "-vpc"), ("Environment", args.environment),
       ("Project", args.project), ("ManagedBy", "pulumi")] ++ extraTags args ∧
    (∀ k v, tagLast (extraTags args) k = some v →
      tagLast (tagsOf (vpcRes name args)) k = some v) ∧
    graphResources name args = vpcRes name args :: graphTail name args ∧
    (∀ t, graphResources name (setTags args t) =
      vpcRes name (setTags args t) :: graphTail name args) ∧
    (∀ r ∈ graphTail name args, ∀ kv ∈ tagsOf r,
      kv.1 ∈ (["Name", "Environment", "Project", "ManagedBy", "Type"] : List String)) := by
  refine ⟨rfl, ?_, graph_eq_vpc_cons_tail name args, ?_, graphTail_keys name args⟩
  · intro k v h
    unfold tagLast at h ⊢
    have he : tagsOf (vpcRes name args) =
        [("Name", name ++ "-vpc"), ("Environment", args.environment),
         ("Project", args.project), ("ManagedBy", "pulumi")] ++ extraTags args := rfl
    rw [he, List.reverse_append, List.find?_append]
    cases hf : (extraTags args).reverse.find? (fun p => p.1 == k) with
    | none => rw [hf] at h; simp at h
    | some p =>
      rw [hf] at h
      simp only [Option.map_some'] at h
      simp [hf, h]
  · intro t
    rw [graph_eq_vpc_cons_tail name (setTags args t),
      graphTail_ignores_extraTags name args t]

/-! ### C6: exact characterization of the CIDR validator -/

/-- Shape of one regex digit group: nonempty, at most `maxLen` digits. -/
def octetShape (maxLen : Nat) (o : List Char) : Prop :=
  o ≠ [] ∧ o.length ≤ maxLen ∧ ∀ c ∈ o, c.isDigit = true

/-- Modelled from the spec: the decimal text of one address octet — one to
three digits whose value is at most 255. -/
def isOctetStr (o : List Char) : Prop :=
  octetShape 3 o ∧ digitsToNat o ≤ 255

/-- Modelled from the spec: the decimal text of a prefix length — one or
two digits whose value lies in [8, 30]. -/
def isPrefixStr (pl : List Char) : Prop :=
  octetShape 2 pl ∧ 8 ≤ digitsToNat pl ∧ digitsToNat pl ≤ 30

/-- Modelled from the spec: a well-formed CIDR string — four dot-separated
octets (each 0-255) followed by a slash and a prefix length in [8, 30]. -/
def CidrWellFormed (s : String) : Prop :=
  ∃ o1 o2 o3 o4 pl : List Char,
    s.toList = o1 ++ '.' :: (o2 ++ '.' :: (o3 ++ '.' :: (o4 ++ '/' :: pl))) ∧
    isOctetStr o1 ∧ isOctetStr o2 ∧ isOctetStr o3 ∧ isOctetStr o4 ∧
    isPrefixStr pl

theorem takeWhile_digits_append (ds : List Char) (c : Char) (rest : List Char)
    (hds : ∀ x ∈ ds, x.isDigit = true) (hc : c.isDigit = false) :
    (ds ++ c :: rest).takeWhile Char.isDigit = ds ∧
    (ds ++ c :: rest).dropWhile Char.isDigit = c :: rest := by
  induction ds with
  | nil => simp [List.takeWhile_cons, List.dropWhile_cons, hc]
  | cons d tl ih =>
    have hd : d.isDigit = true := hds d (List.mem_cons_self d tl)
    have htl := ih (fun x hx => hds x (List.mem_cons_of_mem d hx))
    simp [List.takeWhile_cons, List.dropWhile_cons, hd, htl]

theorem takeWhile_digits_all (ds : List Char)
    (hds : ∀ x ∈ ds, x.isDigit = true) :
    ds.takeWhile Char.isDigit = ds ∧ ds.dropWhile Char.isDigit = [] := by
  induction ds with
  | nil => simp
  | cons d tl ih =>
    have hd : d.isDigit = true := hds d (List.mem_cons_self d tl)
    have htl := ih (fun x hx => hds x (List.mem_cons_of_mem d hx))
    simp [List.takeWhile_cons, List.dropWhile_cons, hd, htl]

theorem splitOnChar_no_sep (sep : Char) (xs : List Char) (h : sep ∉ xs) :
    splitOnChar sep xs = [xs] := by
  induction xs with
  | nil => rfl
  | cons c tl ih =>
    have hc : c ≠ sep := fun he => h (he ▸ List.mem_cons_self c tl)
    have htl := ih (fun hm => h (List.mem_cons_of_mem c hm))
    simp [splitOnChar, hc, htl]

theorem splitOnChar_append (sep : Char) (xs ys : List Char) (h : sep ∉ xs) :
    splitOnChar sep (xs ++ sep :: ys) = xs :: splitOnChar sep ys := by
  induction xs with
  | nil => simp [splitOnChar]
  | cons c tl ih =>
    have hc : c ≠ sep := fun he => h (he ▸ List.mem_cons_self c tl)
    have htl := ih (fun hm => h (List.mem_cons_of_mem c hm))
    simp only [List.cons_append, splitOnChar, if_neg hc, List.append_eq, htl]

theorem matchGroup_some {maxLen : Nat} {sep : Char} {cs rest : List Char}
    (h : matchGroup maxLen sep cs = some rest) :
    ∃ ds, cs = ds ++ sep :: rest ∧ octetShape maxLen ds := by
  simp only [matchGroup] at h
  split at h
  next hlen =>
    split at h
    next c rest2 heq =>
      split at h
      next hc =>
        obtain rfl : rest2 = rest := by injection h
        subst hc
        refine ⟨cs.takeWhile Char.isDigit, ?_, ?_, hlen.2, ?_⟩
        · have hcat := List.takeWhile_append_dropWhile (p := Char.isDigit) (l := cs)
          rw [heq] at hcat
          exact hcat.symm
        · intro he
          rw [he] at hlen
          simp at hlen
        · intro x hx
          exact List.mem_takeWhile_imp hx
      next hc => cases h
    next heq => cases h
  next hlen => cases h

theorem matchGroup_of (maxLen : Nat) (sep : Char) (ds rest : List Char)
    (hsh : octetShape maxLen ds) (hsep : sep.isDigit = false) :
    matchGroup maxLen sep (ds ++ sep :: rest) = some rest := by
  obtain ⟨hne, hlen, hdig⟩ := hsh
  obtain ⟨ht, hd⟩ := takeWhile_digits_append ds sep rest hdig hsep
  unfold matchGroup
  rw [ht, hd]
  have h1 : 1 ≤ ds.length := by
    cases ds with
    | nil => exact absurd rfl hne
    | cons a l => simp
  simp [h1, hlen]

theorem matchEnd_true {maxLen : Nat} {cs : List Char}
    (h : matchEnd maxLen cs = true) : octetShape maxLen cs := by
  unfold matchEnd at h
  simp only [Bool.and_eq_true, decide_eq_true_eq, List.isEmpty_iff] at h
  obtain ⟨⟨h1, h2⟩, hdrop⟩ := h
  have hcs : cs.takeWhile Char.isDigit = cs := by
    have := List.takeWhile_append_dropWhile (p := Char.isDigit) (l := cs)
    rw [hdrop] at this
    simpa using this
  have h2a : cs.length ≤ maxLen := by rw [hcs] at h2; exact h2
  refine ⟨?_, h2a, ?_⟩
  · intro he
    rw [he] at hcs h1
    simp at h1
  · intro x hx
    rw [← hcs] at hx
    exact List.mem_takeWhile_imp hx

theorem matchEnd_of (maxLen : Nat) (ds : List Char) (hsh : octetShape maxLen ds) :
    matchEnd maxLen ds = true := by
  obtain ⟨hne, hlen, hdig⟩ := hsh
  obtain ⟨ht, hd⟩ := takeWhile_digits_all ds hdig
  unfold matchEnd
  rw [ht, hd]
  have h1 : 1 ≤ ds.length := by
    cases ds with
    | nil => exact absurd rfl hne
    | cons a l => simp
  simp [h1, hlen]

theorem cidrRegexTest_eq_true_iff (cs : List Char) :
    cidrRegexTest cs = true ↔
      ∃ o1 o2 o3 o4 pl : List Char,
        cs = o1 ++ '.' :: (o2 ++ '.' :: (o3 ++ '.' :: (o4 ++ '/' :: pl))) ∧
        octetShape 3 o1 ∧ octetShape 3 o2 ∧ octetShape 3 o3 ∧ octetShape 3 o4 ∧
        octetShape 2 pl := by
  constructor
  · intro h
    unfold cidrRegexTest at h
    cases hm1 : matchGroup 3 '.' cs with
    | none => simp only [hm1] at h; cases h
    | some r1 =>
      simp only [hm1] at h
      cases hm2 : matchGroup 3 '.' r1 with
      | none => simp only [hm2] at h; cases h
      | some r2 =>
        simp only [hm2] at h
        cases hm3 : matchGroup 3 '.' r2 with
        | none => simp only [hm3] at h; cases h
        | some r3 =>
          simp only [hm3] at h
          cases hm4 : matchGroup 3 '/' r3 with
          | none => simp only [hm4] at h; cases h
          | some r4 =>
            simp only [hm4] at h
            obtain ⟨o1, e1, s1⟩ := matchGroup_some hm1
            obtain ⟨o2, e2, s2⟩ := matchGroup_some hm2
            obtain ⟨o3, e3, s3⟩ := matchGroup_some hm3
            obtain ⟨o4, e4, s4⟩ := matchGroup_some hm4
            exact ⟨o1, o2, o3, o4, r4,
              by rw [e1, e2, e3, e4], s1, s2, s3, s4, matchEnd_true h⟩
  · rintro ⟨o1, o2, o3, o4, pl, rfl, s1, s2, s3, s4, sp⟩
    unfold cidrRegexTest
    simp only [matchGroup_of 3 '.' o1 _ s1 (by decide),
        matchGroup_of 3 '.' o2 _ s2 (by decide),
        matchGroup_of 3 '.' o3 _ s3 (by decide),
        matchGroup_of 3 '/' o4 _ s4 (by decide)]
    exact matchEnd_of 2 pl sp

theorem octetShape_no_slash {m : Nat} {o : List Char} (ho : octetShape m o) :
    '/' ∉ o := by
  intro hm
  exact absurd (ho.2.2 _ hm) (by decide)

theorem octetShape_no_dot {m : Nat} {o : List Char} (ho : octetShape m o) :
    '.' ∉ o := by
  intro hm
  exact absurd (ho.2.2 _ hm) (by decide)

theorem cidr_splits (o1 o2 o3 o4 pl : List Char)
    (s1 : octetShape 3 o1) (s2 : octetShape 3 o2) (s3 : octetShape 3 o3)
    (s4 : octetShape 3 o4) (sp : octetShape 2 pl) :
    splitOnChar '/' (o1 ++ '.' :: (o2 ++ '.' :: (o3 ++ '.' :: (o4 ++ '/' :: pl)))) =
      [o1 ++ '.' :: (o2 ++ '.' :: (o3 ++ '.' :: o4)), pl] ∧
    splitOnChar '.' (o1 ++ '.' :: (o2 ++ '.' :: (o3 ++ '.' :: o4))) =
      [o1, o2, o3, o4] := by
  constructor
  · have hni : '/' ∉ o1 ++ '.' :: (o2 ++ '.' :: (o3 ++ '.' :: o4)) := by
      intro hm
      simp only [List.mem_append, List.mem_cons] at hm
      rcases hm with h | h | h | h | h | h | h
      · exact octetShape_no_slash s1 h
      · exact absurd h (by decide)
      · exact octetShape_no_slash s2 h
      · exact absurd h (by decide)
      · exact octetShape_no_slash s3 h
      · exact absurd h (by decide)
      · exact octetShape_no_slash s4 h
    have heq : o1 ++ '.' :: (o2 ++ '.' :: (o3 ++ '.' :: (o4 ++ '/' :: pl))) =
        (o1 ++ '.' :: (o2 ++ '.' :: (o3 ++ '.' :: o4))) ++ '/' :: pl := by
      simp [List.append_assoc]
    rw [heq, splitOnChar_append '/' _ pl hni,
      splitOnChar_no_sep '/' pl (octetShape_no_slash sp)]
  · rw [splitOnChar_append '.' o1 _ (octetShape_no_dot s1),
      splitOnChar_append '.' o2 _ (octetShape_no_dot s2),
      splitOnChar_append '.' o3 _ (octetShape_no_dot s3),
      splitOnChar_no_sep '.' o4 (octetShape_no_dot s4)]

theorem validateCidrBlock_ok_iff (s nm : String) :
    validateCidrBlock s nm = .ok () ↔ CidrWellFormed s := by
  constructor
  · intro h
    unfold validateCidrBlock at h
    by_cases hreg : cidrRegexTest s.toList = false
    · rw [if_pos hreg] at h; cases h
    rw [if_neg hreg] at h
    have hreg' : cidrRegexTest s.toList = true := by
      cases hh : cidrRegexTest s.toList
      · exact absurd hh hreg
      · rfl
    obtain ⟨o1, o2, o3, o4, pl, hs, s1, s2, s3, s4, sp⟩ :=
      (cidrRegexTest_eq_true_iff _).mp hreg'
    obtain ⟨hspl1, hspl2⟩ := cidr_splits o1 o2 o3 o4 pl s1 s2 s3 s4 sp
    rw [hs, hspl1] at h
    simp only [List.getD_cons_zero, List.getD_cons_succ] at h
    simp only [hspl2] at h
    by_cases hp : digitsToNat pl < 8 ∨ digitsToNat pl > 30
    · rw [if_pos hp] at h; cases h
    rw [if_neg hp] at h
    by_cases ho : ((([o1, o2, o3, o4].map digitsToNat).any fun p => 255 < p) = true)
    · rw [if_pos ho] at h; cases h
    simp only [List.map_cons, List.map_nil, List.any_cons, List.any_nil,
      Bool.or_eq_true, decide_eq_true_eq, Bool.or_eq_false_iff] at ho
    push_neg at ho hp
    refine ⟨o1, o2, o3, o4, pl, hs, ⟨s1, ?_⟩, ⟨s2, ?_⟩, ⟨s3, ?_⟩, ⟨s4, ?_⟩,
      ⟨sp, ?_, ?_⟩⟩ <;> omega
  · rintro ⟨o1, o2, o3, o4, pl, hs, ⟨s1, v1⟩, ⟨s2, v2⟩, ⟨s3, v3⟩, ⟨s4, v4⟩,
      ⟨sp, p8, p30⟩⟩
    obtain ⟨hspl1, hspl2⟩ := cidr_splits o1 o2 o3 o4 pl s1 s2 s3 s4 sp
    have hreg' : cidrRegexTest s.toList = true := by
      rw [hs]
      exact (cidrRegexTest_eq_true_iff _).mpr
        ⟨o1, o2, o3, o4, pl, rfl, s1, s2, s3, s4, sp⟩
    unfold validateCidrBlock
    rw [hs] at hreg' ⊢
    rw [if_neg (by simp [hreg'])]
    rw [hspl1]
    simp only [List.getD_cons_zero, List.getD_cons_succ, hspl2]
    rw [if_neg (by omega)]
    rw [if_neg ?hoct]
    case hoct =>
      intro hcontra
      simp only [List.map_cons, List.map_nil, List.any_cons, List.any_nil,
        Bool.or_eq_true, decide_eq_true_eq, Bool.false_eq_true, or_false] at hcontra
      omega

/-- C6: the CIDR validator accepts exactly the well-formed CIDR strings —
four dot-separated octets (one to three digits each, value at most 255)
followed by a slash and a one-or-two-digit prefix length in [8, 30]; in
particular it rejects "10.0.0.0", "10.0.0.0/31", "10.0.0.0/7",
"999.0.0.0/16" and "10.0.0.0/16x", and accepts "10.0.0.0/16" and
"172.16.0.0/12". -/
theorem cidr_validator_exact :
    (∀ s nm : String, validateCidrBlock s nm = .ok () ↔ CidrWellFormed s) ∧
    validateCidrBlock "10.0.0.0/16" "x" = .ok () ∧
    validateCidrBlock "172.16.0.0/12" "x" = .ok () ∧
    validateCidrBlock "10.0.0.0" "x" =
      .error "x must be a valid CIDR block (e.g., 10.0.0.0/16)" ∧
    validateCidrBlock "10.0.0.0/31" "x" =
      .error "x prefix must be between 8 and 30" ∧
    validateCidrBlock "10.0.0.0/7" "x" =
      .error "x prefix must be between 8 and 30" ∧
    validateCidrBlock "999.0.0.0/16" "x" =
      .error "x contains invalid IP address" ∧
    validateCidrBlock "10.0.0.0/16x" "x" =
      .error "x must be a valid CIDR block (e.g., 10.0.0.0/16)" :=
  ⟨validateCidrBlock_ok_iff, by decide, by decide, by decide, by decide,
   by decide, by decide, by decide⟩
